import Mathlib

/-!
Verification of the sifttt automation controller (redstone-network/sifttt).

The development shallowly embeds the TypeScript sources:
  * `ProtectionAutomation.getAccountState` (protection_automation.ts) — the
    Protection account decoder;
  * the trigger predicates of `ProtectionService.checkHealthFactors`
    (protection_service.ts), `checkAndTriggerProtection`,
    `checkAndExecuteDCA` and `checkAndExecutePriceTrade` (the legacy
    combined service);
  * the instruction encoders of `ProtectionAutomation`, `DCAAutomation` and
    `PriceTradeAutomation`;
  * the per-cycle control flow of `ProtectionService.checkHealthFactors`,
    `forceCheck`, the constructor and `start`.

Byte buffers are `List Nat` (each entry a byte value).  JavaScript numbers
that arise from `Number(...)` on a possibly-undefined typed-array element
are modelled by `JsNum` (`nan` or an exact natural); integer arithmetic is
modelled exactly.  A Node `Buffer` is modelled as a view (`JsBuffer`) into
an underlying `ArrayBuffer`, reproducing the memory-sharing semantics of
`Buffer#slice` and of the `.buffer` property — `slice` shares memory and
`.buffer` is the entire underlying `ArrayBuffer`, not the sliced range.
`jsSlice` extracts a byte range of a plain byte list and is used to state
offset facts about the encoded instruction payloads.
-/

namespace Sifttt

/-- A JavaScript number produced by `Number(x)` where `x` may be `undefined`
(giving `NaN`) or a `BigInt` (giving its exact value, modelled as `Nat`). -/
inductive JsNum where
  | nan : JsNum
  | num : Nat → JsNum
deriving DecidableEq, Repr

/-- `data.slice(start, stop)` on a byte array: the bytes from index `start`
up to (exclusive) `stop`, clamped to the array's length. -/
def jsSlice (data : List Nat) (start stop : Nat) : List Nat :=
  (data.drop start).take (stop - start)

/-- Value of a byte list read as a little-endian natural number. -/
def leBytesToNat : List Nat → Nat
  | [] => 0
  | b :: rest => b + 256 * leBytesToNat rest

/-- A Node `Buffer`: a view of `len` bytes starting at byte `off` of an
underlying `ArrayBuffer` `ab`.  `Buffer#slice` returns a memory-sharing
view (an alias of `subarray`), and `.buffer` on any such view yields the
ENTIRE underlying `ArrayBuffer` — the slice bounds are lost. -/
structure JsBuffer where
  ab : List Nat
  off : Nat
  len : Nat

/-- `Number(new BigUint64Array(someView.buffer)[0])`: the constructor
views the whole `ArrayBuffer` from byte 0 and throws a `RangeError` when
its byteLength is not a multiple of 8; on an empty `ArrayBuffer` the
element access yields `undefined`, hence `NaN`; otherwise the value is the
little-endian u64 of the `ArrayBuffer`'s FIRST 8 bytes — irrespective of
which slice the view was. -/
def readBigUint64ViaBuffer (ab : List Nat) : Except String JsNum :=
  if ab.length % 8 = 0 then
    .ok (if ab.length = 0 then .nan else .num (leBytesToNat (ab.take 8)))
  else .error "RangeError"

/-- Decoded Protection account state (`AccountState` in
protection_automation.ts). -/
structure AccountState where
  healthFactor : JsNum
  triggerHealthFactor : JsNum
  targetHealthFactor : JsNum
  automationEnabled : Bool
deriving DecidableEq, Repr

/-- `ProtectionAutomation.getAccountState`, from the raw account data
onwards (the account-existence check is modelled at the fetch layer).
Each of the three numeric reads is
`Number(new BigUint64Array(data.slice(a, b).buffer)[0])`; since
`data.slice(a, b).buffer` is the same whole underlying `ArrayBuffer` for
every `(a, b)`, the three reads are identical and never touch the sliced
byte ranges `[8:16)`, `[16:24)`, `[24:32)`.  `automationEnabled` is
`Boolean(data[32])`, which does index the view: byte `off + 32` of the
`ArrayBuffer` when `32 < len`, `undefined` (hence `false`) otherwise. -/
def getAccountState (buf : JsBuffer) : Except String AccountState :=
  match readBigUint64ViaBuffer buf.ab with
  | .error e => .error e
  | .ok healthFactor =>
    match readBigUint64ViaBuffer buf.ab with
    | .error e => .error e
    | .ok triggerHealthFactor =>
      match readBigUint64ViaBuffer buf.ab with
      | .error e => .error e
      | .ok targetHealthFactor =>
        .ok { healthFactor := healthFactor
            , triggerHealthFactor := triggerHealthFactor
            , targetHealthFactor := targetHealthFactor
            , automationEnabled :=
                if 32 < buf.len then buf.ab.getD (buf.off + 32) 0 ≠ 0
                else false }

/-- Error case: a `BigUint64Array` over an `ArrayBuffer` whose byteLength
is not a multiple of 8 throws. -/
lemma readBigUint64ViaBuffer_err (ab : List Nat) (h : ab.length % 8 ≠ 0) :
    readBigUint64ViaBuffer ab = .error "RangeError" := by
  simp [readBigUint64ViaBuffer, h]

lemma readBigUint64ViaBuffer_ok (ab : List Nat) (h8 : ab.length % 8 = 0)
    (h0 : ab.length ≠ 0) :
    readBigUint64ViaBuffer ab = .ok (.num (leBytesToNat (ab.take 8))) := by
  simp [readBigUint64ViaBuffer, h8, h0]

/-- The canonical exactly-allocated account buffer of the documented
33-byte layout (byteOffset 0, `ArrayBuffer` byteLength 33): 8 header
bytes, healthFactor 60, triggerHealthFactor 70, targetHealthFactor 90 as
little-endian u64s, byte 32 = 1. -/
def canonicalAccountBuffer : JsBuffer :=
  ⟨[0, 0, 0, 0, 0, 0, 0, 0] ++
   [60, 0, 0, 0, 0, 0, 0, 0] ++
   [70, 0, 0, 0, 0, 0, 0, 0] ++
   [90, 0, 0, 0, 0, 0, 0, 0] ++ [1], 0, 33⟩

/-- C1 — code_bug.  The decode never reads the documented byte ranges:
each `new BigUint64Array(data.slice(a, b).buffer)` is constructed over the
whole underlying `ArrayBuffer`, viewed from byte 0.  Hence (1) on the
canonical exactly-allocated 33-byte account holding the documented layout
the decode throws `RangeError` (33 is not a multiple of 8) instead of
returning the fields; (2) in general the decode throws exactly when the
`ArrayBuffer`'s byteLength is not a multiple of 8, regardless of the
33-byte requirement; and (3) whenever it does return, all three u64
fields carry one and the same value — the little-endian u64 of the
`ArrayBuffer`'s first 8 bytes, i.e. the opaque header region, not
healthFactor / triggerHealthFactor / targetHealthFactor — while
`automationEnabled` alone reads the intended view byte 32. -/
theorem c1_buffer_bug :
    getAccountState canonicalAccountBuffer = .error "RangeError"
    ∧ (∀ buf : JsBuffer, buf.ab.length % 8 ≠ 0 →
        getAccountState buf = .error "RangeError")
    ∧ (∀ buf : JsBuffer, buf.ab.length % 8 = 0 → buf.ab.length ≠ 0 →
        getAccountState buf =
          .ok { healthFactor := .num (leBytesToNat (buf.ab.take 8))
              , triggerHealthFactor := .num (leBytesToNat (buf.ab.take 8))
              , targetHealthFactor := .num (leBytesToNat (buf.ab.take 8))
              , automationEnabled :=
                  if 32 < buf.len then buf.ab.getD (buf.off + 32) 0 ≠ 0
                  else false }) := by
  refine ⟨rfl, ?_, ?_⟩
  · intro buf h
    rw [getAccountState, readBigUint64ViaBuffer_err buf.ab h]
  · intro buf h8 h0
    rw [getAccountState, readBigUint64ViaBuffer_ok buf.ab h8 h0]

/-- C1 — witness: the characterisations applied at concrete buffers.  A
12-byte `ArrayBuffer` throws; a 16-byte one whose header starts with byte
97 and whose would-be healthFactor bytes `[8:16)` encode 60 decodes with
ALL THREE numeric fields equal to 97 — the header value — not 60. -/
theorem c1_witness :
    getAccountState ⟨List.replicate 12 5, 0, 12⟩ = .error "RangeError"
    ∧ getAccountState
        ⟨[97, 0, 0, 0, 0, 0, 0, 0] ++ [60, 0, 0, 0, 0, 0, 0, 0], 0, 16⟩ =
      .ok { healthFactor := .num 97, triggerHealthFactor := .num 97
          , targetHealthFactor := .num 97, automationEnabled := false } :=
  ⟨c1_buffer_bug.2.1 ⟨List.replicate 12 5, 0, 12⟩ (by decide),
   (c1_buffer_bug.2.2
      ⟨[97, 0, 0, 0, 0, 0, 0, 0] ++ [60, 0, 0, 0, 0, 0, 0, 0], 0, 16⟩
      (by decide) (by decide)).trans rfl⟩

/-! ## Trigger predicates -/

/-- JavaScript `a <= b` on possibly-NaN numbers: any comparison with `NaN`
is `false`. -/
def jsLeNum : JsNum → JsNum → Bool
  | .num a, .num b => decide (a ≤ b)
  | _, _ => false

/-- JavaScript `a > 0` on a possibly-NaN number. -/
def jsGtZero : JsNum → Bool
  | .num a => decide (0 < a)
  | .nan => false

/-- Trigger condition of `ProtectionService.checkHealthFactors`
(protection_service.ts): `accountState.automationEnabled &&
accountState.healthFactor <= accountState.triggerHealthFactor &&
accountState.triggerHealthFactor > 0`. -/
def shouldTriggerProtection (s : AccountState) : Bool :=
  s.automationEnabled && jsLeNum s.healthFactor s.triggerHealthFactor &&
    jsGtZero s.triggerHealthFactor

/-- Trigger condition of the legacy `checkAndTriggerProtection` (combined
service): `state.automationEnabled && state.healthFactor <=
state.triggerHealthFactor` — note the missing `triggerHealthFactor > 0`
guard. -/
def shouldTriggerProtectionLegacy (s : AccountState) : Bool :=
  s.automationEnabled && jsLeNum s.healthFactor s.triggerHealthFactor

/-- C2 — corrected.  `ProtectionService.checkHealthFactors` triggers an
autoRepay iff `automationEnabled && healthFactor <= triggerHealthFactor &&
triggerHealthFactor > 0`, and with `triggerHealthFactor = 0` it never
triggers; but the other cited protection check,
`checkAndTriggerProtection` of the legacy combined service, omits the
`triggerHealthFactor > 0` guard and triggers iff
`automationEnabled && healthFactor <= triggerHealthFactor`. -/
theorem c2_protection_trigger :
    (∀ (hf thf tf : Nat) (en : Bool),
      shouldTriggerProtection
          ⟨.num hf, .num thf, .num tf, en⟩ = true ↔
        (en = true ∧ hf ≤ thf ∧ 0 < thf))
    ∧ (∀ s : AccountState, s.triggerHealthFactor = .num 0 →
        shouldTriggerProtection s = false)
    ∧ (∀ (hf thf tf : Nat) (en : Bool),
        shouldTriggerProtectionLegacy
            ⟨.num hf, .num thf, .num tf, en⟩ = true ↔
          (en = true ∧ hf ≤ thf)) := by
  refine ⟨?_, ?_, ?_⟩
  · intro hf thf tf en
    simp [shouldTriggerProtection, jsLeNum, jsGtZero, and_assoc]
  · intro s hs
    simp [shouldTriggerProtection, hs, jsGtZero]
  · intro hf thf tf en
    simp [shouldTriggerProtectionLegacy, jsLeNum]

/-- C2 — counterexample: the legacy protection check triggers at
`healthFactor = 0, triggerHealthFactor = 0, automationEnabled = true`,
although the claim says a check never triggers when
`triggerHealthFactor == 0`. -/
theorem c2_legacy_zero_trigger_counterexample :
    shouldTriggerProtectionLegacy ⟨.num 0, .num 0, .num 0, true⟩ = true := by
  rfl

/-- C2 — witness: the amended characterisations applied at concrete
states. -/
theorem c2_witness :
    shouldTriggerProtection ⟨.num 60, .num 70, .num 90, true⟩ = true
    ∧ shouldTriggerProtection ⟨.num 0, .num 0, .num 90, true⟩ = false
    ∧ shouldTriggerProtectionLegacy ⟨.num 60, .num 70, .num 90, true⟩ = true :=
  ⟨(c2_protection_trigger.1 60 70 90 true).mpr
      ⟨rfl, by norm_num, by norm_num⟩,
   c2_protection_trigger.2.1 ⟨.num 0, .num 0, .num 90, true⟩ rfl,
   (c2_protection_trigger.2.2 60 70 90 true).mpr ⟨rfl, by norm_num⟩⟩

/-- Initial value of the legacy combined service's `lastDCATime` field:
`0`, i.e. the epoch, standing for "no DCA execution recorded yet". -/
def dcaLastTimeInit : Int := 0

/-- Trigger decision of `checkAndExecuteDCA` (legacy combined service):
returns early unless `dcaEnabled && dcaInterval > 0`, then executes the
buy when `now - lastDCATime >= dcaInterval * 1000`. -/
def shouldExecuteDCA (dcaEnabled : Bool) (dcaInterval : Nat)
    (lastDCATime now : Int) : Bool :=
  if !dcaEnabled || dcaInterval ≤ 0 then false
  else decide ((dcaInterval : Int) * 1000 ≤ now - lastDCATime)

/-- C3 — corrected.  The DCA check triggers iff `enabled ∧ intervalSeconds
> 0 ∧ now - lastTriggeredAt ≥ intervalSeconds * 1000`.  The first-ever
check is not unconditionally "interval elapsed": it runs with
`lastDCATime = 0` (the epoch), so it triggers iff additionally
`now ≥ intervalSeconds * 1000` — true for any realistic interval, but not
for an interval exceeding the current epoch-milliseconds. -/
theorem c3_dca_trigger :
    (∀ (en : Bool) (iv : Nat) (last now : Int),
      shouldExecuteDCA en iv last now = true ↔
        (en = true ∧ 0 < iv ∧ (iv : Int) * 1000 ≤ now - last))
    ∧ (∀ (en : Bool) (iv : Nat) (now : Int),
        shouldExecuteDCA en iv dcaLastTimeInit now = true ↔
          (en = true ∧ 0 < iv ∧ (iv : Int) * 1000 ≤ now)) := by
  constructor
  · intro en iv last now
    cases en <;> simp [shouldExecuteDCA] <;> omega
  · intro en iv now
    cases en <;> simp [shouldExecuteDCA, dcaLastTimeInit] <;> omega

/-- C3 — counterexample: a first-ever check (`lastDCATime = 0`) with
`enabled = true` and `intervalSeconds = 2 > 0` at `now = 1000` ms does not
trigger, although the claim says the first-ever check triggers whenever
the other conditions hold. -/
theorem c3_first_check_counterexample :
    shouldExecuteDCA true 2 dcaLastTimeInit 1000 = false := by
  rfl

/-- C3 — witness: the amended characterisation applied at the spec's
scenario (daily interval, last trigger 90 000 000 ms ago triggers; a
re-check 1 s after the trigger time was recorded does not). -/
theorem c3_witness :
    shouldExecuteDCA true 86400 0 90000000 = true
    ∧ shouldExecuteDCA true 86400 90000000 90001000 = false :=
  ⟨(c3_dca_trigger.1 true 86400 0 90000000).mpr
      ⟨rfl, by norm_num, by norm_num⟩,
   by
    have h := (c3_dca_trigger.1 true 86400 90000000 90001000).not
    simp only [Bool.not_eq_true] at h
    apply h.mpr
    rintro ⟨-, -, hle⟩
    omega⟩

/-- Trigger decision of `checkAndExecutePriceTrade` (legacy combined
service): returns early unless `priceTradingEnabled && targetPrice > 0`,
then executes the trade when `currentPrice <= targetPrice`.  The current
price (a market quote) is modelled as an exact rational. -/
def shouldExecutePriceTrade (priceTradingEnabled : Bool) (targetPrice : Nat)
    (currentPrice : ℚ) : Bool :=
  if !priceTradingEnabled || targetPrice ≤ 0 then false
  else decide (currentPrice ≤ (targetPrice : ℚ))

/-- C4 — confirmed.  The price-trade check triggers iff `enabled ∧
targetPrice > 0 ∧ currentPrice ≤ targetPrice`, and in particular never
triggers when the current price is above the target (no sell side). -/
theorem c4_price_trade_trigger :
    (∀ (en : Bool) (tp : Nat) (cp : ℚ),
      shouldExecutePriceTrade en tp cp = true ↔
        (en = true ∧ 0 < tp ∧ cp ≤ (tp : ℚ)))
    ∧ (∀ (en : Bool) (tp : Nat) (cp : ℚ),
        (tp : ℚ) < cp → shouldExecutePriceTrade en tp cp = false) := by
  constructor
  · intro en tp cp
    cases en
    · simp [shouldExecutePriceTrade]
    · rcases Nat.eq_zero_or_pos tp with h0 | hpos
      · subst h0
        simp [shouldExecutePriceTrade]
      · have hne : ¬ tp ≤ 0 := by omega
        simp [shouldExecutePriceTrade, hne, hpos]
  · intro en tp cp h
    cases en
    · simp [shouldExecutePriceTrade]
    · by_cases htp : tp ≤ 0
      · simp [shouldExecutePriceTrade, htp]
      · simp [shouldExecutePriceTrade, htp, not_le.mpr h]

/-- C4 — witness: the spec's scenario, target 150: price 140 triggers,
price 160 does not. -/
theorem c4_witness :
    shouldExecutePriceTrade true 150 140 = true
    ∧ shouldExecutePriceTrade true 150 160 = false :=
  ⟨(c4_price_trade_trigger.1 true 150 140).mpr
      ⟨rfl, by norm_num, by norm_num⟩,
   c4_price_trade_trigger.2 true 150 160 (by norm_num)⟩

/-! ## Instruction encoders

`INSTRUCTION_DISCRIMINATOR` constants of protection_automation.ts
(INITIALIZE..AUTO_REPAY), dca.ts (SET_DCA, MOCK_BUY) and price_trade.ts
(SET_PRICE_TRADING, EXECUTE_PRICE_TRADE), and the `data` buffers built by
the `create*Instruction` helpers (`Buffer.concat` of the discriminator and
the field encodings; a `BigUint64Array([BigInt(x)]).buffer` contributes the
8 little-endian bytes of `x mod 2^64`, `PublicKey.toBytes()` its raw 32
bytes). -/

def initDisc : List Nat := [97, 97, 97, 97, 97, 97, 97, 97]

def setAutomationDisc : List Nat := [98, 98, 98, 98, 98, 98, 98, 98]

def borrowDisc : List Nat := [99, 99, 99, 99, 99, 99, 99, 99]

def repayDisc : List Nat := [100, 100, 100, 100, 100, 100, 100, 100]

def autoRepayDisc : List Nat := [101, 101, 101, 101, 101, 101, 101, 101]

def setDCADisc : List Nat := [102, 102, 102, 102, 102, 102, 102, 102]

def mockBuyDisc : List Nat := [103, 103, 103, 103, 103, 103, 103, 103]

def setPriceTradingDisc : List Nat := [104, 104, 104, 104, 104, 104, 104, 104]

def executePriceTradeDisc : List Nat :=
  [105, 105, 105, 105, 105, 105, 105, 105]

/-- The list of the nine instruction discriminators, in declaration
order. -/
def allDiscs : List (List Nat) :=
  [initDisc, setAutomationDisc, borrowDisc, repayDisc, autoRepayDisc,
   setDCADisc, mockBuyDisc, setPriceTradingDisc, executePriceTradeDisc]

/-- The `k` low-order bytes of `n`, little-endian. -/
def natToLEBytes (n : Nat) : Nat → List Nat
  | 0 => []
  | k + 1 => n % 256 :: natToLEBytes (n / 256) k

/-- The 8 bytes contributed by `new BigUint64Array([BigInt(x)]).buffer`:
the little-endian encoding of `x mod 2^64`. -/
def u64LE (x : Nat) : List Nat := natToLEBytes x 8

/-- `createInitializeInstruction` data: the bare discriminator. -/
def createInitInstructionData : List Nat := initDisc

/-- `createSetAutomationInstruction` data. -/
def createSetAutomationInstructionData
    (triggerHealthFactor targetHealthFactor : Nat) : List Nat :=
  setAutomationDisc ++ u64LE triggerHealthFactor ++ u64LE targetHealthFactor

/-- `createBorrowInstruction` data: the bare discriminator. -/
def createBorrowInstructionData : List Nat := borrowDisc

/-- `createRepayInstruction` data: the bare discriminator. -/
def createRepayInstructionData : List Nat := repayDisc

/-- `createAutoRepayInstruction` data: the bare discriminator. -/
def createAutoRepayInstructionData : List Nat := autoRepayDisc

/-- `createSetDCAInstruction` data. -/
def createSetDCAInstructionData (interval : Nat) (tokenAddress : List Nat)
    (tokenAmount : Nat) : List Nat :=
  setDCADisc ++ u64LE interval ++ tokenAddress ++ u64LE tokenAmount

/-- `createMockBuyInstruction` data. -/
def createMockBuyInstructionData (tokenAddress : List Nat)
    (tokenAmount : Nat) : List Nat :=
  mockBuyDisc ++ tokenAddress ++ u64LE tokenAmount

/-- `createSetPriceTradingInstruction` data. -/
def createSetPriceTradingInstructionData (targetPrice : Nat)
    (tokenAddress : List Nat) (tokenAmount : Nat) : List Nat :=
  setPriceTradingDisc ++ u64LE targetPrice ++ tokenAddress ++
    u64LE tokenAmount

/-- `createExecutePriceTradeInstruction` data. -/
def createExecutePriceTradeInstructionData (currentPrice : Nat) : List Nat :=
  executePriceTradeDisc ++ u64LE currentPrice

lemma u64LE_length (x : Nat) : (u64LE x).length = 8 := rfl

lemma leBytesToNat_natToLEBytes (k : Nat) :
    ∀ n : Nat, leBytesToNat (natToLEBytes n k) = n % 256 ^ k := by
  induction k with
  | zero => intro n; simp [natToLEBytes, leBytesToNat, Nat.mod_one]
  | succ k ih =>
    intro n
    rw [natToLEBytes, leBytesToNat, ih (n / 256), pow_succ', Nat.mod_mul]

/-- The little-endian value of the `u64LE` bytes is the encoded integer
modulo `2^64`. -/
lemma leBytesToNat_u64LE (x : Nat) : leBytesToNat (u64LE x) = x % 2 ^ 64 := by
  rw [u64LE, leBytesToNat_natToLEBytes]
  norm_num

/-- A slice past a prefix only sees the suffix. -/
lemma jsSlice_append_ge (q rest : List Nat) (a b : Nat)
    (ha : q.length ≤ a) :
    jsSlice (q ++ rest) a b = jsSlice rest (a - q.length) (b - q.length) := by
  unfold jsSlice
  have hd : (q ++ rest).drop a = rest.drop (a - q.length) := by
    conv_lhs => rw [show a = q.length + (a - q.length) from by omega]
    rw [List.drop_append]
  rw [hd]
  congr 1
  omega

/-- A slice from 0 of exactly a leading block's length is that block. -/
lemma jsSlice_zero_take (xs ys : List Nat) (n : Nat) (h : xs.length = n) :
    jsSlice (xs ++ ys) 0 n = xs := by
  unfold jsSlice
  rw [List.drop_zero, Nat.sub_zero, ← h, List.take_left]

/-- A slice from 0 covering the whole list is the list. -/
lemma jsSlice_zero_full (xs : List Nat) (n : Nat) (h : xs.length ≤ n) :
    jsSlice xs 0 n = xs := by
  unfold jsSlice
  rw [List.drop_zero, Nat.sub_zero]
  exact List.take_of_length_le h

/-- C5 — confirmed.  Every instruction payload is its 8-byte constant
discriminator followed by the field bytes in declaration order — integers
as little-endian u64 (`x mod 2^64` at the documented offset), public keys
as their raw 32 bytes, no length prefix (total length = 8 + field bytes) —
and the nine discriminators are pairwise distinct. -/
theorem c5_instruction_encoding :
    (allDiscs.Nodup ∧ ∀ d ∈ allDiscs, d.length = 8)
    ∧ (∀ x : Nat, (u64LE x).length = 8 ∧ leBytesToNat (u64LE x) = x % 2 ^ 64)
    ∧ (createInitInstructionData = initDisc
       ∧ createBorrowInstructionData = borrowDisc
       ∧ createRepayInstructionData = repayDisc
       ∧ createAutoRepayInstructionData = autoRepayDisc)
    ∧ (∀ a b : Nat,
        createSetAutomationInstructionData a b =
          setAutomationDisc ++ u64LE a ++ u64LE b
        ∧ jsSlice (createSetAutomationInstructionData a b) 0 8 =
            setAutomationDisc
        ∧ jsSlice (createSetAutomationInstructionData a b) 8 16 = u64LE a
        ∧ jsSlice (createSetAutomationInstructionData a b) 16 24 = u64LE b
        ∧ (createSetAutomationInstructionData a b).length = 24)
    ∧ (∀ (iv amt : Nat) (tok : List Nat), tok.length = 32 →
        createSetDCAInstructionData iv tok amt =
          setDCADisc ++ u64LE iv ++ tok ++ u64LE amt
        ∧ jsSlice (createSetDCAInstructionData iv tok amt) 0 8 = setDCADisc
        ∧ jsSlice (createSetDCAInstructionData iv tok amt) 8 16 = u64LE iv
        ∧ jsSlice (createSetDCAInstructionData iv tok amt) 16 48 = tok
        ∧ jsSlice (createSetDCAInstructionData iv tok amt) 48 56 = u64LE amt
        ∧ (createSetDCAInstructionData iv tok amt).length = 56)
    ∧ (∀ (amt : Nat) (tok : List Nat), tok.length = 32 →
        createMockBuyInstructionData tok amt =
          mockBuyDisc ++ tok ++ u64LE amt
        ∧ jsSlice (createMockBuyInstructionData tok amt) 0 8 = mockBuyDisc
        ∧ jsSlice (createMockBuyInstructionData tok amt) 8 40 = tok
        ∧ jsSlice (createMockBuyInstructionData tok amt) 40 48 = u64LE amt
        ∧ (createMockBuyInstructionData tok amt).length = 48)
    ∧ (∀ (tp amt : Nat) (tok : List Nat), tok.length = 32 →
        createSetPriceTradingInstructionData tp tok amt =
          setPriceTradingDisc ++ u64LE tp ++ tok ++ u64LE amt
        ∧ jsSlice (createSetPriceTradingInstructionData tp tok amt) 0 8 =
            setPriceTradingDisc
        ∧ jsSlice (createSetPriceTradingInstructionData tp tok amt) 8 16 =
            u64LE tp
        ∧ jsSlice (createSetPriceTradingInstructionData tp tok amt) 16 48 =
            tok
        ∧ jsSlice (createSetPriceTradingInstructionData tp tok amt) 48 56 =
            u64LE amt
        ∧ (createSetPriceTradingInstructionData tp tok amt).length = 56)
    ∧ (∀ cp : Nat,
        createExecutePriceTradeInstructionData cp =
          executePriceTradeDisc ++ u64LE cp
        ∧ jsSlice (createExecutePriceTradeInstructionData cp) 0 8 =
            executePriceTradeDisc
        ∧ jsSlice (createExecutePriceTradeInstructionData cp) 8 16 = u64LE cp
        ∧ (createExecutePriceTradeInstructionData cp).length = 16) := by
  refine ⟨⟨by decide, by decide⟩,
    fun x => ⟨u64LE_length x, leBytesToNat_u64LE x⟩,
    ⟨rfl, rfl, rfl, rfl⟩, ?_, ?_, ?_, ?_, ?_⟩
  · intro a b
    refine ⟨rfl, ?_, ?_, ?_, ?_⟩
    · exact jsSlice_zero_take setAutomationDisc _ 8 rfl
    · rw [createSetAutomationInstructionData, List.append_assoc,
        jsSlice_append_ge setAutomationDisc _ 8 16 (by simp [setAutomationDisc])]
      exact jsSlice_zero_take (u64LE a) _ 8 (u64LE_length a)
    · rw [createSetAutomationInstructionData,
        jsSlice_append_ge (setAutomationDisc ++ u64LE a) _ 16 24
          (by simp [setAutomationDisc, u64LE_length])]
      exact jsSlice_zero_full (u64LE b) 8 (by simp [u64LE_length])
    · simp [createSetAutomationInstructionData, setAutomationDisc,
        u64LE_length]
  · intro iv amt tok htok
    refine ⟨rfl, ?_, ?_, ?_, ?_, ?_⟩
    · exact jsSlice_zero_take setDCADisc _ 8 rfl
    · rw [createSetDCAInstructionData, List.append_assoc, List.append_assoc,
        jsSlice_append_ge setDCADisc _ 8 16 (by simp [setDCADisc])]
      exact jsSlice_zero_take (u64LE iv) _ 8 (u64LE_length iv)
    · rw [createSetDCAInstructionData, List.append_assoc,
        jsSlice_append_ge (setDCADisc ++ u64LE iv) _ 16 48
          (by simp [setDCADisc, u64LE_length])]
      exact jsSlice_zero_take tok _ 32 htok
    · rw [createSetDCAInstructionData,
        jsSlice_append_ge (setDCADisc ++ u64LE iv ++ tok) _ 48 56
          (by simp [setDCADisc, u64LE_length, htok])]
      have hl : (setDCADisc ++ u64LE iv ++ tok).length = 48 := by
        simp [setDCADisc, u64LE_length, htok]
      rw [hl]
      norm_num
      exact jsSlice_zero_full (u64LE amt) 8 (by simp [u64LE_length])
    · simp [createSetDCAInstructionData, setDCADisc, u64LE_length, htok]
  · intro amt tok htok
    refine ⟨rfl, ?_, ?_, ?_, ?_⟩
    · exact jsSlice_zero_take mockBuyDisc _ 8 rfl
    · rw [createMockBuyInstructionData, List.append_assoc,
        jsSlice_append_ge mockBuyDisc _ 8 40 (by simp [mockBuyDisc])]
      exact jsSlice_zero_take tok _ 32 htok
    · rw [createMockBuyInstructionData,
        jsSlice_append_ge (mockBuyDisc ++ tok) _ 40 48
          (by simp [mockBuyDisc, htok])]
      have hl : (mockBuyDisc ++ tok).length = 40 := by
        simp [mockBuyDisc, htok]
      rw [hl]
      norm_num
      exact jsSlice_zero_full (u64LE amt) 8 (by simp [u64LE_length])
    · simp [createMockBuyInstructionData, mockBuyDisc, u64LE_length, htok]
  · intro tp amt tok htok
    refine ⟨rfl, ?_, ?_, ?_, ?_, ?_⟩
    · exact jsSlice_zero_take setPriceTradingDisc _ 8 rfl
    · rw [createSetPriceTradingInstructionData, List.append_assoc,
        List.append_assoc,
        jsSlice_append_ge setPriceTradingDisc _ 8 16
          (by simp [setPriceTradingDisc])]
      exact jsSlice_zero_take (u64LE tp) _ 8 (u64LE_length tp)
    · rw [createSetPriceTradingInstructionData, List.append_assoc,
        jsSlice_append_ge (setPriceTradingDisc ++ u64LE tp) _ 16 48
          (by simp [setPriceTradingDisc, u64LE_length])]
      exact jsSlice_zero_take tok _ 32 htok
    · rw [createSetPriceTradingInstructionData,
        jsSlice_append_ge (setPriceTradingDisc ++ u64LE tp ++ tok) _ 48 56
          (by simp [setPriceTradingDisc, u64LE_length, htok])]
      have hl : (setPriceTradingDisc ++ u64LE tp ++ tok).length = 48 := by
        simp [setPriceTradingDisc, u64LE_length, htok]
      rw [hl]
      norm_num
      exact jsSlice_zero_full (u64LE amt) 8 (by simp [u64LE_length])
    · simp [createSetPriceTradingInstructionData, setPriceTradingDisc,
        u64LE_length, htok]
  · intro cp
    refine ⟨rfl, ?_, ?_, ?_⟩
    · exact jsSlice_zero_take executePriceTradeDisc _ 8 rfl
    · rw [createExecutePriceTradeInstructionData,
        jsSlice_append_ge executePriceTradeDisc _ 8 16
          (by simp [executePriceTradeDisc])]
      exact jsSlice_zero_full (u64LE cp) 8 (by simp [u64LE_length])
    · simp [createExecutePriceTradeInstructionData, executePriceTradeDisc,
        u64LE_length]

/-- C5 — witness: the encoding facts applied at concrete field values
(the token address is the 32-byte key `[7, 7, ..., 7]`). -/
theorem c5_witness :
    jsSlice (createSetDCAInstructionData 86400 (List.replicate 32 7) 100)
        16 48 = List.replicate 32 7
    ∧ (createMockBuyInstructionData (List.replicate 32 7) 100).length = 48
    ∧ jsSlice (createSetAutomationInstructionData 70 90) 8 16 = u64LE 70 :=
  ⟨((c5_instruction_encoding.2.2.2.2.1 86400 100 (List.replicate 32 7)
      (by simp)).2.2.2.1),
   ((c5_instruction_encoding.2.2.2.2.2.1 100 (List.replicate 32 7)
      (by simp)).2.2.2.2),
   ((c5_instruction_encoding.2.2.2.1 70 90).2.2.1)⟩

/-! ## The check cycle of `ProtectionService.checkHealthFactors`

The chain gateway is modelled as an environment: `fetch` is
`automation.getAccountState()` (`none` for any throw — account not found
or decode failure), `submitOk` tells whether `automation.autoRepay()`
succeeds, and `refetch` is the post-repay `getAccountState()` re-read. -/

structure ChainEnv where
  fetch : String → Option AccountState
  submitOk : String → Bool
  refetch : String → Option AccountState

/-- `ProtectionData` of protection_service.ts — the cached snapshot. -/
structure ProtectionData where
  accountPubkey : String
  healthFactor : JsNum
  triggerHealthFactor : JsNum
  targetHealthFactor : JsNum
  automationEnabled : Bool
  lastChecked : Int
  lastTriggered : Option Int
deriving DecidableEq, Repr

/-- The snapshot built from a freshly fetched state, before any trigger:
`lastChecked = now`, no `lastTriggered`. -/
def baseProtectionData (pk : String) (st : AccountState) (now : Int) :
    ProtectionData :=
  { accountPubkey := pk
  , healthFactor := st.healthFactor
  , triggerHealthFactor := st.triggerHealthFactor
  , targetHealthFactor := st.targetHealthFactor
  , automationEnabled := st.automationEnabled
  , lastChecked := now
  , lastTriggered := none }

/-- One iteration of the `for (const pubkeyStr of this.accountPubkeys)`
loop body of `checkHealthFactors`: fetch, build the snapshot, trigger
auto-repay when warranted.  The outer try/catch turns any fetch failure
into `none` (nothing is pushed to `results`); the inner try/catch around
`autoRepay`/re-fetch leaves the base snapshot untouched on failure. -/
def checkOneAccount (env : ChainEnv) (now : Int) (pk : String) :
    Option ProtectionData :=
  match env.fetch pk with
  | none => none
  | some st =>
    let pd := baseProtectionData pk st now
    if shouldTriggerProtection st then
      if env.submitOk pk then
        match env.refetch pk with
        | some newSt =>
          some { pd with healthFactor := newSt.healthFactor
                       , lastTriggered := some now }
        | none => some pd
      else some pd
    else some pd

/-- `checkHealthFactors`' per-cycle results — the exact list that is then
written to the cache wholesale by `updateCache(results)`. -/
def checkHealthFactors (env : ChainEnv) (now : Int) (pks : List String) :
    List ProtectionData :=
  pks.filterMap (checkOneAccount env now)

/-- Whether the loop body reaches the `automation.autoRepay()` call for an
address: the fetch succeeded and the trigger condition held. -/
def attemptsAutoRepay (env : ChainEnv) (pk : String) : Bool :=
  match env.fetch pk with
  | none => false
  | some st => shouldTriggerProtection st

/-- C6 — corrected.  When the middle one of three monitored addresses
fails to fetch, the cycle still fully processes (and, if warranted,
triggers) the other two — the batch equals the one obtained without the
failing address — but the failing address contributes NO entry to the
cache batch: since `updateCache(results)` replaces the whole cached list,
its previous good entry is dropped rather than carried over. -/
theorem c6_per_address_isolation (env : ChainEnv) (now : Int)
    (a b c : String) (hb : env.fetch b = none) :
    checkHealthFactors env now [a, b, c] =
      (checkOneAccount env now a).toList ++ (checkOneAccount env now c).toList
    ∧ checkHealthFactors env now [a, b, c] =
        checkHealthFactors env now [a, c] := by
  have hb' : checkOneAccount env now b = none := by
    simp [checkOneAccount, hb]
  constructor
  · cases ha : checkOneAccount env now a <;>
      cases hc : checkOneAccount env now c <;>
      simp [checkHealthFactors, List.filterMap_cons, hb', ha, hc]
  · cases ha : checkOneAccount env now a <;>
      cases hc : checkOneAccount env now c <;>
      simp [checkHealthFactors, List.filterMap_cons, hb', ha, hc]

/-- A concrete three-address environment: `acc1` warrants a trigger,
`acc2` fails to fetch, `acc3` is healthy. -/
def threeAccountEnv : ChainEnv :=
  { fetch := fun pk =>
      if pk = "acc1" then some ⟨.num 60, .num 70, .num 90, true⟩
      else if pk = "acc3" then some ⟨.num 80, .num 70, .num 90, true⟩
      else none
  , submitOk := fun _ => true
  , refetch := fun pk =>
      if pk = "acc1" then some ⟨.num 90, .num 70, .num 90, true⟩
      else none }

/-- C6 — counterexample to the claim as stated: with `acc2`'s fetch
failing, the cycle's cache batch holds exactly the `acc1` and `acc3`
entries — there is no entry at all for `acc2`, so the batch does not
"contain entries for all monitored addresses". -/
theorem c6_missing_entry_counterexample :
    checkHealthFactors threeAccountEnv 5 ["acc1", "acc2", "acc3"] =
      [{ accountPubkey := "acc1", healthFactor := .num 90
       , triggerHealthFactor := .num 70, targetHealthFactor := .num 90
       , automationEnabled := true, lastChecked := 5
       , lastTriggered := some 5 },
       { accountPubkey := "acc3", healthFactor := .num 80
       , triggerHealthFactor := .num 70, targetHealthFactor := .num 90
       , automationEnabled := true, lastChecked := 5
       , lastTriggered := none }] := by
  rfl

/-- C6 — witness: the amended theorem applied to the concrete three-address
environment. -/
theorem c6_witness :
    checkHealthFactors threeAccountEnv 5 ["acc1", "acc2", "acc3"] =
      checkHealthFactors threeAccountEnv 5 ["acc1", "acc3"] :=
  (c6_per_address_isolation threeAccountEnv 5 "acc1" "acc2" "acc3" rfl).2

/-- C7 — confirmed.  When the auto-repay submission fails, the address's
snapshot is still pushed with `lastChecked = now`, no `lastTriggered`, and
the pre-trigger health factor; and since the trigger decision depends only
on the freshly fetched on-chain state, the unchanged condition makes the
loop attempt the auto-repay again on the next tick. -/
theorem c7_failed_submission (env : ChainEnv) (now : Int) (pk : String)
    (st : AccountState) (hf : env.fetch pk = some st)
    (ht : shouldTriggerProtection st = true)
    (hs : env.submitOk pk = false) :
    checkOneAccount env now pk = some (baseProtectionData pk st now)
    ∧ (baseProtectionData pk st now).lastTriggered = none
    ∧ (baseProtectionData pk st now).healthFactor = st.healthFactor
    ∧ (baseProtectionData pk st now).lastChecked = now
    ∧ attemptsAutoRepay env pk = true := by
  refine ⟨?_, rfl, rfl, rfl, ?_⟩
  · simp [checkOneAccount, hf, ht, hs]
  · simp [attemptsAutoRepay, hf, ht]

/-- An environment whose submission always fails while the account warrants
a trigger. -/
def failSubmitEnv : ChainEnv :=
  { fetch := fun _ => some ⟨.num 60, .num 70, .num 90, true⟩
  , submitOk := fun _ => false
  , refetch := fun _ => none }

/-- C7 — witness: the theorem applied to the always-failing-submission
environment. -/
theorem c7_witness :
    checkOneAccount failSubmitEnv 9 "acct" =
      some { accountPubkey := "acct", healthFactor := .num 60
           , triggerHealthFactor := .num 70, targetHealthFactor := .num 90
           , automationEnabled := true, lastChecked := 9
           , lastTriggered := none }
    ∧ attemptsAutoRepay failSubmitEnv "acct" = true := by
  have h := c7_failed_submission failSubmitEnv 9 "acct"
    ⟨.num 60, .num 70, .num 90, true⟩ rfl rfl rfl
  exact ⟨h.1, h.2.2.2.2⟩

/-! ## Service construction, startup and the forceCheck path -/

/-- The runtime settings consulted by the services. -/
structure Settings where
  solanaPrivateKey : Option String
  walletPrivateKey : Option String
  siftttAccount : Option String

/-- JavaScript falsiness of a possibly-absent string setting (`undefined`
and the empty string are falsy). -/
def jsFalsyStr : Option String → Bool
  | none => true
  | some s => s.isEmpty

/-- `ProtectionService.initialize` of the legacy combined service: resolves
`SOLANA_PRIVATE_KEY ?? WALLET_PRIVATE_KEY`, throwing (and re-throwing to
the caller) when it is missing, then requires `SIFTTT_ACCOUNT`; only after
both succeed is `startHealthCheck()` reached.  The returned `true` stands
for "periodic health check armed".  (Key-decoding failures also propagate;
they are outside this claim and not modelled.) -/
def legacyServiceInit (s : Settings) : Except String Bool :=
  if jsFalsyStr (s.solanaPrivateKey.orElse fun _ => s.walletPrivateKey) then
    .error "No private key found in settings"
  else if jsFalsyStr s.siftttAccount then
    .error "No SIFTTT account found in settings"
  else .ok true

/-- In-memory state of `ProtectionService` (protection_service.ts). -/
structure ServiceState where
  keypairOk : Bool
  accountPubkeys : List String
  timerArmed : Bool
  isMonitoring : Bool
deriving DecidableEq, Repr

/-- The `ProtectionService` constructor: a present, decodable private key
sets the keypair; a missing or undecodable one only logs — no exception
escapes.  A present `SIFTTT_ACCOUNT` seeds the monitored list. -/
def constructService (s : Settings) (bs58DecodeOk : Bool) : ServiceState :=
  let pk := s.solanaPrivateKey.orElse fun _ => s.walletPrivateKey
  { keypairOk := !jsFalsyStr pk && bs58DecodeOk
  , accountPubkeys :=
      if jsFalsyStr s.siftttAccount then [] else [s.siftttAccount.getD ""]
  , timerArmed := false
  , isMonitoring := false }

/-- `ProtectionService.start`: constructs the service, merges cached
addresses (skipping falsy and duplicate entries), arms the periodic timer
and kicks off an initial check.  It never fails. -/
def startService (s : Settings) (bs58DecodeOk : Bool)
    (cachedPubkeys : List String) : ServiceState :=
  let svc := constructService s bs58DecodeOk
  let merged := cachedPubkeys.foldl
    (fun acc pk =>
      if pk.isEmpty then acc
      else if pk ∈ acc then acc else acc ++ [pk])
    svc.accountPubkeys
  { svc with accountPubkeys := merged, timerArmed := true }

/-- One invocation of `checkHealthFactors` including its early returns:
`[]` when the keypair is missing or no accounts are monitored; the
`isMonitoring` flag is set during the run but never consulted as a
guard. -/
def runCheckCycle (svc : ServiceState) (env : ChainEnv) (now : Int) :
    List ProtectionData :=
  if !svc.keypairOk then []
  else if svc.accountPubkeys.isEmpty then []
  else checkHealthFactors env now svc.accountPubkeys

/-- Whether a cycle started at some earlier time and ending at `cycleEnd`
is still in flight at time `t` — i.e. the value of `isMonitoring` read at
`t` (`checkHealthFactors` sets it at entry and clears it on completion). -/
def isMonitoringAt (t cycleEnd : Int) : Bool := decide (t < cycleEnd)

/-- The time at which `forceCheck`, called at `t`, actually invokes
`checkHealthFactors`: the code awaits one fixed 1000 ms delay iff
`isMonitoring` was true at the call, then calls unconditionally — it
neither re-checks the flag nor waits for the in-flight cycle. -/
def forceCheckRunTime (t : Int) (isMonitoringAtCall : Bool) : Int :=
  if isMonitoringAtCall then t + 1000 else t

/-- Whether the forced check starts while the in-flight cycle is still
running. -/
def forceCheckOverlapsInflight (t cycleEnd : Int) : Bool :=
  decide (forceCheckRunTime t (isMonitoringAt t cycleEnd) < cycleEnd)

/-- C8 — corrected.  A forced check is never dropped — `forceCheck` always
proceeds to `checkHealthFactors` — but nothing prevents overlap: when a
cycle is in flight, `forceCheck` waits a single fixed 1000 ms and then
runs regardless, so it avoids the in-flight cycle only when that cycle
ends within 1000 ms and runs concurrently with it otherwise; and
`checkHealthFactors` itself never consults `isMonitoring`, so the flag
blocks no second cycle. -/
theorem c8_force_check_no_mutual_exclusion (t cycleEnd : Int) :
    (isMonitoringAt t cycleEnd = true →
      forceCheckRunTime t (isMonitoringAt t cycleEnd) = t + 1000)
    ∧ (cycleEnd ≤ t + 1000 → forceCheckOverlapsInflight t cycleEnd = false)
    ∧ (t + 1000 < cycleEnd → forceCheckOverlapsInflight t cycleEnd = true)
    ∧ (∀ (svc : ServiceState) (env : ChainEnv) (now : Int),
        runCheckCycle { svc with isMonitoring := true } env now =
          runCheckCycle { svc with isMonitoring := false } env now) := by
  refine ⟨?_, ?_, ?_, ?_⟩
  · intro hmon
    simp [forceCheckRunTime, hmon]
  · intro hend
    have hmon : isMonitoringAt t cycleEnd = decide (t < cycleEnd) := rfl
    by_cases hlt : t < cycleEnd
    · simp [forceCheckOverlapsInflight, isMonitoringAt, forceCheckRunTime,
        hlt]
      omega
    · simp [forceCheckOverlapsInflight, isMonitoringAt, forceCheckRunTime,
        hlt]
  · intro hfar
    have hlt : t < cycleEnd := by omega
    simp [forceCheckOverlapsInflight, isMonitoringAt, forceCheckRunTime, hlt]
    omega
  · intro svc env now
    rfl

/-- C8 — counterexample to the claim as stated: a forced check arriving at
`t = 0` while a cycle is in flight until `t = 5000` starts at `t = 1000`,
strictly before the in-flight cycle completes — the two run
concurrently. -/
theorem c8_overlap_counterexample :
    isMonitoringAt 0 5000 = true
    ∧ forceCheckRunTime 0 (isMonitoringAt 0 5000) = 1000
    ∧ forceCheckOverlapsInflight 0 5000 = true := by
  refine ⟨rfl, rfl, rfl⟩

/-- C8 — witness: the amended theorem applied at concrete times — an
in-flight cycle ending within the delay is not overlapped, one ending
later is. -/
theorem c8_witness :
    forceCheckOverlapsInflight 0 900 = false
    ∧ forceCheckOverlapsInflight 0 5000 = true :=
  ⟨(c8_force_check_no_mutual_exclusion 0 900).2.1 (by norm_num),
   (c8_force_check_no_mutual_exclusion 0 5000).2.2.1 (by norm_num)⟩

/-- C9 — corrected.  In the legacy combined service a missing signing key
is fatal exactly as claimed: `initialize` throws, the error reaches the
caller, and the periodic check is never armed.  But in `ProtectionService`
(protection_service.ts) a missing key is not fatal: the constructor does
not throw, `start` still arms the timer and returns the service, and every
check cycle merely exits early with an empty result. -/
theorem c9_missing_key (s : Settings) (bs58DecodeOk : Bool)
    (cachedPubkeys : List String)
    (hk : jsFalsyStr (s.solanaPrivateKey.orElse fun _ =>
      s.walletPrivateKey) = true) :
    legacyServiceInit s = .error "No private key found in settings"
    ∧ (startService s bs58DecodeOk cachedPubkeys).timerArmed = true
    ∧ (startService s bs58DecodeOk cachedPubkeys).keypairOk = false
    ∧ ∀ (env : ChainEnv) (now : Int),
        runCheckCycle (startService s bs58DecodeOk cachedPubkeys) env now =
          [] := by
  refine ⟨?_, rfl, ?_, ?_⟩
  · simp [legacyServiceInit, hk]
  · simp [startService, constructService, hk]
  · intro env now
    have hkp : (startService s bs58DecodeOk cachedPubkeys).keypairOk =
        false := by
      simp [startService, constructService, hk]
    simp [runCheckCycle, hkp]

/-- C9 — counterexample to the claim as stated: with no private key
configured at all, `ProtectionService.start` still starts the controller —
the timer is armed and cycles run (returning empty results). -/
theorem c9_nonfatal_counterexample :
    (startService ⟨none, none, some "acct"⟩ true []).timerArmed = true
    ∧ (startService ⟨none, none, some "acct"⟩ true []).keypairOk = false := by
  refine ⟨rfl, rfl⟩

/-- C9 — witness: the amended theorem applied at settings with no key. -/
theorem c9_witness :
    legacyServiceInit ⟨none, none, some "acct"⟩ =
      .error "No private key found in settings"
    ∧ runCheckCycle (startService ⟨none, none, some "acct"⟩ true [])
        ⟨fun _ => none, fun _ => true, fun _ => none⟩ 0 = [] := by
  have h := c9_missing_key ⟨none, none, some "acct"⟩ true [] rfl
  exact ⟨h.1, h.2.2.2 ⟨fun _ => none, fun _ => true, fun _ => none⟩ 0⟩

/-! ## `getMonitoredAccounts` and the array copy

JavaScript arrays are mutable references, so the "fresh copy" behaviour of
`return [...this.accountPubkeys]` is stated over a minimal heap: numbered
array cells plus the service's other mutable fields. -/

/-- A minimal JS heap: allocated string arrays addressed by index, the
protection-data cache and the `lastUpdate` timing field. -/
structure JsHeap where
  arrays : List (List String)
  cache : List ProtectionData
  lastUpdate : Int
deriving Repr

/-- Dereference an array cell. -/
def readArray (h : JsHeap) (r : Nat) : List String := h.arrays.getD r []

/-- Allocate a fresh array cell holding `v`; returns the new heap and the
fresh reference. -/
def allocArray (h : JsHeap) (v : List String) : JsHeap × Nat :=
  ({ h with arrays := h.arrays ++ [v] }, h.arrays.length)

/-- In-place element assignment `arr[i] = v` on the array at `r`. -/
def writeArrayElem (h : JsHeap) (r i : Nat) (v : String) : JsHeap :=
  { h with arrays := h.arrays.set r ((h.arrays.getD r []).set i v) }

/-- `ProtectionService.getMonitoredAccounts`: `return
[...this.accountPubkeys]` — allocate a fresh array holding a copy of the
registry's elements; nothing else is touched. -/
def getMonitoredAccounts (h : JsHeap) (registry : Nat) : JsHeap × Nat :=
  allocArray h (readArray h registry)

lemma getD_append_lt (A B : List (List String)) (r : Nat)
    (hr : r < A.length) : (A ++ B).getD r [] = A.getD r [] := by
  rw [List.getD, List.getD, List.get?_append hr]

lemma getD_set_ne (A : List (List String)) (i j : Nat) (x : List String)
    (hij : i ≠ j) : (A.set i x).getD j [] = A.getD j [] := by
  rw [List.getD, List.getD, List.get?_set_ne x A hij]

/-- C10 — confirmed.  `getMonitoredAccounts` returns a fresh array (a
reference distinct from the registry's) whose contents equal the
registry's; the call leaves the registry, the cache and the timing field
unchanged; and mutating the returned array leaves the registry — and hence
the result of any later call — unchanged. -/
theorem c10_get_monitored_accounts (h : JsHeap) (r : Nat)
    (hr : r < h.arrays.length) :
    (getMonitoredAccounts h r).2 ≠ r
    ∧ readArray (getMonitoredAccounts h r).1 (getMonitoredAccounts h r).2 =
        readArray h r
    ∧ readArray (getMonitoredAccounts h r).1 r = readArray h r
    ∧ (getMonitoredAccounts h r).1.cache = h.cache
    ∧ (getMonitoredAccounts h r).1.lastUpdate = h.lastUpdate
    ∧ ∀ (i : Nat) (v : String),
        readArray
          (writeArrayElem (getMonitoredAccounts h r).1
            (getMonitoredAccounts h r).2 i v) r = readArray h r := by
  refine ⟨?_, ?_, ?_, rfl, rfl, ?_⟩
  · intro he
    simp only [getMonitoredAccounts, allocArray] at he
    omega
  · show (h.arrays ++ [readArray h r]).getD h.arrays.length [] = readArray h r
    rw [List.getD, List.get?_concat_length]
    rfl
  · show (h.arrays ++ [readArray h r]).getD r [] = readArray h r
    rw [getD_append_lt _ _ r hr]
    rfl
  · intro i v
    show ((h.arrays ++ [readArray h r]).set h.arrays.length _).getD r [] =
      readArray h r
    rw [getD_set_ne _ _ _ _ (by omega), getD_append_lt _ _ r hr]
    rfl

/-- A concrete heap: one registry array `["a", "b"]`. -/
def sampleHeap : JsHeap := ⟨[["a", "b"]], [], 0⟩

/-- C10 — witness: on the concrete heap, the copy is a fresh reference and
writing `"z"` into it leaves the registry's contents `["a", "b"]`. -/
theorem c10_witness :
    (getMonitoredAccounts sampleHeap 0).2 = 1
    ∧ readArray
        (writeArrayElem (getMonitoredAccounts sampleHeap 0).1
          (getMonitoredAccounts sampleHeap 0).2 0 "z") 0 = ["a", "b"] := by
  have h := c10_get_monitored_accounts sampleHeap 0 (by simp [sampleHeap])
  exact ⟨rfl, (h.2.2.2.2.2 0 "z").trans rfl⟩

end Sifttt
